import Mathlib

/-!
Verification of the frame-synchronization and swap-chain lifecycle core of
the HelloTriangle Vulkan application
(src/HelloTriangle/HelloTriangleApplication.cpp and .h).

Vulkan result codes are modelled by their numeric values as integers, object
handles (fences, semaphores) by natural numbers with 0 playing the role of
VK_NULL_HANDLE, and the externally observable Vulkan calls made by one
invocation of drawFrame by a trace of events.  The outcome of drawFrame is
either a normal return or a thrown runtime error carrying its message.
-/

namespace HelloTriangle

/-- Numeric value of VK_SUCCESS. -/
def VK_SUCCESS : Int := 0

/-- Numeric value of VK_SUBOPTIMAL_KHR (a non-error Vulkan status code). -/
def VK_SUBOPTIMAL_KHR : Int := 1000001003

/-- Numeric value of VK_ERROR_OUT_OF_DATE_KHR. -/
def VK_ERROR_OUT_OF_DATE_KHR : Int := -1000001004

/-- Numeric value of VK_FENCE_CREATE_SIGNALED_BIT. -/
def VK_FENCE_CREATE_SIGNALED_BIT : Nat := 1

/-- Value of the class constant MAX_FRAMES_IN_FLIGHT
(HelloTriangleApplication.h, line 124). -/
def MAX_FRAMES_IN_FLIGHT : Nat := 2

/-- The mutable members of HelloTriangleApplication that the per-frame
synchronization protocol reads and writes.  Handle vectors hold the Vulkan
handles as natural numbers; 0 stands for VK_NULL_HANDLE. -/
structure AppState where
  currentFrame : Nat
  frameBufferResized : Bool
  imageAvailableSemaphores : List Nat
  renderFinishedSemaphores : List Nat
  inFlightFences : List Nat
  imagesInFlight : List Nat
deriving DecidableEq, Repr

/-- Results returned to drawFrame by the Vulkan runtime during one
invocation: the result and image index of vkAcquireNextImageKHR, the result
of vkQueueSubmit and the result of vkQueuePresentKHR. -/
structure DrawEnv where
  acquireResult : Int
  acquiredImageIndex : Nat
  submitResult : Int
  presentResult : Int
deriving DecidableEq, Repr

/-- Observable Vulkan calls made by drawFrame, in program order. -/
inductive Event where
  | waitForFences (fences : List Nat)
  | acquireNextImage (signalSemaphore : Nat)
  | resetFences (fences : List Nat)
  | queueSubmit (waitSemaphores : List Nat) (commandBufferIndex : Nat)
      (signalSemaphores : List Nat) (fence : Nat)
  | queuePresent (waitSemaphores : List Nat) (imageIndex : Nat)
  | recreateSwapChainCall
deriving DecidableEq, Repr

/-- How one invocation of drawFrame ends: a normal return, or a thrown
std::runtime_error with its message. -/
inductive Outcome where
  | returned
  | threw (message : String)
deriving DecidableEq, Repr

/-- The full effect of one invocation of drawFrame: its trace of Vulkan
calls, how it ended, and the successor application state. -/
structure DrawResult where
  trace : List Event
  outcome : Outcome
  state : AppState
deriving DecidableEq, Repr

/-- Fence of the currently active frame slot:
inFlightFences[currentFrame]. -/
def slotFence (s : AppState) : Nat := s.inFlightFences.getD s.currentFrame 0

/-- Image-available semaphore of the currently active frame slot:
imageAvailableSemaphores[currentFrame]. -/
def slotImageAvailable (s : AppState) : Nat :=
  s.imageAvailableSemaphores.getD s.currentFrame 0

/-- Render-finished semaphore of the currently active frame slot:
renderFinishedSemaphores[currentFrame]. -/
def slotRenderFinished (s : AppState) : Nat :=
  s.renderFinishedSemaphores.getD s.currentFrame 0

/-- Line 60 of HelloTriangleApplication.cpp:
imagesInFlight[imageIndex] = inFlightFences[currentFrame], marking the
acquired image as in use by the fence of the current slot. -/
def markImageInFlight (s : AppState) (i : Nat) : AppState :=
  { s with imagesInFlight := s.imagesInFlight.set i (slotFence s) }

/-- HelloTriangleApplication::drawFrame
(HelloTriangleApplication.cpp, lines 13-122), translated branch for branch:
wait on the fence of the slot, acquire an image (early return with swap-chain
recreation on VK_ERROR_OUT_OF_DATE_KHR, throw on any other result that is
neither VK_SUCCESS nor VK_SUBOPTIMAL_KHR), wait on the fence recorded for the
acquired image when one is present, record the fence of the slot in
imagesInFlight, reset the fence of the slot, submit waiting on the
image-available semaphore of the slot and signaling its render-finished
semaphore and its fence (throw on failure), present waiting on that same
render-finished semaphore (recreating the swap chain when the present result
is out-of-date or suboptimal or the resize flag is set, throwing on any other
non-success result), and finally advance currentFrame modulo
MAX_FRAMES_IN_FLIGHT.

This definition is the part of drawFrame after a successful acquire
(HelloTriangleApplication.cpp, lines 55-121): the image-in-flight check and
wait, the marking of the image, the fence reset, the queue submit, the
present and the slot advance. -/
def submitAndPresent (s : AppState) (env : DrawEnv) : DrawResult :=
  let imageIndex := env.acquiredImageIndex
  let imageFence := s.imagesInFlight.getD imageIndex 0
  let imageWait := if imageFence ≠ 0 then [Event.waitForFences [imageFence]] else []
  let s1 : AppState := markImageInFlight s imageIndex
  let evReset := Event.resetFences [slotFence s]
  let evSubmit := Event.queueSubmit [slotImageAvailable s] imageIndex
    [slotRenderFinished s] (slotFence s)
  let submitted := [Event.waitForFences [slotFence s],
    Event.acquireNextImage (slotImageAvailable s)] ++ imageWait ++ [evReset, evSubmit]
  if env.submitResult ≠ VK_SUCCESS then
    ⟨submitted, Outcome.threw "failed to submit draw command buffer", s1⟩
  else
    let evPresent := Event.queuePresent [slotRenderFinished s] imageIndex
    if env.presentResult = VK_ERROR_OUT_OF_DATE_KHR ∨
        env.presentResult = VK_SUBOPTIMAL_KHR ∨ s1.frameBufferResized then
      ⟨submitted ++ [evPresent, Event.recreateSwapChainCall], Outcome.returned,
        { s1 with frameBufferResized := false,
                  currentFrame := (s1.currentFrame + 1) % MAX_FRAMES_IN_FLIGHT }⟩
    else if env.presentResult ≠ VK_SUCCESS then
      ⟨submitted ++ [evPresent], Outcome.threw "failed to present swap chain image", s1⟩
    else
      ⟨submitted ++ [evPresent], Outcome.returned,
        { s1 with currentFrame := (s1.currentFrame + 1) % MAX_FRAMES_IN_FLIGHT }⟩

/-- HelloTriangleApplication::drawFrame
(HelloTriangleApplication.cpp, lines 13-122): wait on the fence of the slot,
acquire an image, return early with swap-chain recreation on
VK_ERROR_OUT_OF_DATE_KHR, throw on any other result that is neither
VK_SUCCESS nor VK_SUBOPTIMAL_KHR, and otherwise continue with
submitAndPresent. -/
def drawFrame (s : AppState) (env : DrawEnv) : DrawResult :=
  if env.acquireResult = VK_ERROR_OUT_OF_DATE_KHR then
    ⟨[Event.waitForFences [slotFence s], Event.acquireNextImage (slotImageAvailable s),
      Event.recreateSwapChainCall], Outcome.returned, s⟩
  else if env.acquireResult ≠ VK_SUCCESS ∧ env.acquireResult ≠ VK_SUBOPTIMAL_KHR then
    ⟨[Event.waitForFences [slotFence s], Event.acquireNextImage (slotImageAvailable s)],
      Outcome.threw "failed to aquire swap chain image", s⟩
  else
    submitAndPresent s env

/-- HelloTriangleApplication::createSemaphores
(HelloTriangleApplication.cpp, lines 1160-1172): both semaphore vectors are
resized to MAX_FRAMES_IN_FLIGHT and each entry is filled with a freshly
created semaphore handle, drawn here from an abstract allocator of fresh
handles. -/
def createSemaphores (alloc : Nat → Nat) : List Nat × List Nat :=
  ((List.range MAX_FRAMES_IN_FLIGHT).map fun i => alloc (2 * i),
   (List.range MAX_FRAMES_IN_FLIGHT).map fun i => alloc (2 * i + 1))

/-- A fence as created by vkCreateFence: its handle and its creation
flags. -/
structure CreatedFence where
  handle : Nat
  flags : Nat
deriving DecidableEq, Repr

/-- HelloTriangleApplication::createFences
(HelloTriangleApplication.cpp, lines 1174-1189): the fence vector is resized
to MAX_FRAMES_IN_FLIGHT and each fence is created with
VK_FENCE_CREATE_SIGNALED_BIT set. -/
def createFences (alloc : Nat → Nat) : List CreatedFence :=
  (List.range MAX_FRAMES_IN_FLIGHT).map fun i =>
    { handle := alloc i, flags := VK_FENCE_CREATE_SIGNALED_BIT }

/-- HelloTriangleApplication::createFenceImageTracking
(HelloTriangleApplication.cpp, lines 1191-1199):
imagesInFlight.resize(swapChainImages.size(), VK_NULL_HANDLE), with the
resize semantics of std::vector applied to the previous contents. -/
def createFenceImageTracking (prev : List Nat) (numImages : Nat) : List Nat :=
  prev.take numImages ++ List.replicate (numImages - prev.length) 0

/-- Synchronization-relevant application state right after initVulkan
(HelloTriangleApplication.cpp, lines 174-191, and the member initializers in
HelloTriangleApplication.h, lines 121-127): currentFrame starts at 0, the
resize flag is clear, and the sync-object vectors are those built by
createSemaphores, createFences and createFenceImageTracking. -/
def initialApp (numImages : Nat) (semAlloc fenceAlloc : Nat → Nat) : AppState :=
  { currentFrame := 0
    frameBufferResized := false
    imageAvailableSemaphores := (createSemaphores semAlloc).1
    renderFinishedSemaphores := (createSemaphores semAlloc).2
    inFlightFences := (createFences fenceAlloc).map CreatedFence.handle
    imagesInFlight := createFenceImageTracking [] numImages }

/-- The teardown and rebuild helpers that cleanupSwapChain and
recreateSwapChain invoke, named after what they destroy or create. -/
inductive SetupCall where
  | destroyFramebuffers
  | freeCommandBuffers
  | destroyPipeline
  | destroyPipelineLayout
  | destroyRenderPass
  | destroyImageViews
  | destroySwapchain
  | deviceWaitIdle
  | createSwapChainCall
  | createImageViewsCall
  | createRenderPassCall
  | createGraphicsPipelineCall
  | createFramebuffersCall
  | createCommandBuffersCall
  | createSemaphoresCall
  | createFencesCall
  | createFenceImageTrackingCall
deriving DecidableEq, Repr

/-- HelloTriangleApplication::cleanupSwapChain
(HelloTriangleApplication.cpp, lines 147-165), as the ordered list of
destruction calls it performs. -/
def cleanupSwapChainCalls : List SetupCall :=
  [SetupCall.destroyFramebuffers, SetupCall.freeCommandBuffers,
   SetupCall.destroyPipeline, SetupCall.destroyPipelineLayout,
   SetupCall.destroyRenderPass, SetupCall.destroyImageViews,
   SetupCall.destroySwapchain]

/-- HelloTriangleApplication::recreateSwapChain
(HelloTriangleApplication.cpp, lines 293-321), as the ordered list of calls
it performs after its wait loop: vkDeviceWaitIdle, cleanupSwapChain, then the
six creation helpers it invokes (the pipeline layout is recreated inside
createGraphicsPipeline). -/
def recreateSwapChainCalls : List SetupCall :=
  [SetupCall.deviceWaitIdle] ++ cleanupSwapChainCalls ++
  [SetupCall.createSwapChainCall, SetupCall.createImageViewsCall,
   SetupCall.createRenderPassCall, SetupCall.createGraphicsPipelineCall,
   SetupCall.createFramebuffersCall, SetupCall.createCommandBuffersCall]

/-- A vertex as in the nested struct HelloTriangleApplication::Vertex
(HelloTriangleApplication.h, lines 30-94): a 2-component position and a
3-component color.  The float literals of the source are all exactly
representable, so the components are modelled as rationals. -/
structure Vertex where
  pos : Rat × Rat
  color : Rat × Rat × Rat
deriving DecidableEq, Repr

/-- The class constant HelloTriangleApplication::vertices
(HelloTriangleApplication.h, lines 103-107). -/
def vertices : List Vertex :=
  [{ pos := (0, -(1/2)), color := (1, 1, 1) },
   { pos := (1/2, 1/2), color := (0, 1, 0) },
   { pos := (-(1/2), 1/2), color := (0, 0, 1) }]

/-- Commands recorded into a command buffer by createCommandBuffers. -/
inductive Command where
  | beginRenderPass (framebufferIndex : Nat)
  | bindPipeline
  | bindVertexBuffers
  | draw (vertexCount instanceCount firstVertex firstInstance : Nat)
  | endRenderPass
deriving DecidableEq, Repr

/-- The commands recorded into the command buffer with index i by the loop
body of HelloTriangleApplication::createCommandBuffers
(HelloTriangleApplication.cpp, lines 1078-1157): begin the render pass on
framebuffer i, bind the pipeline, bind the vertex buffers, issue
vkCmdDraw(commandBuffers[i], vertices.size(), 1, 0, 0), end the render
pass. -/
def recordCommandBuffer (i : Nat) : List Command :=
  [Command.beginRenderPass i, Command.bindPipeline, Command.bindVertexBuffers,
   Command.draw vertices.length 1 0 0, Command.endRenderPass]

/-- HelloTriangleApplication::createCommandBuffers
(HelloTriangleApplication.cpp, lines 1061-1158): one command buffer per
swap-chain framebuffer, each recorded by the loop body. -/
def createCommandBuffers (numFramebuffers : Nat) : List (List Command) :=
  (List.range numFramebuffers).map recordCommandBuffer

/-- Test whether a recorded command is a draw call. -/
def isDrawCommand : Command → Bool
  | Command.draw _ _ _ _ => true
  | _ => false

/-- The swap-chain image count requested by
HelloTriangleApplication::createSwapChain
(HelloTriangleApplication.cpp, lines 227-232): minImageCount + 1 in uint32_t
arithmetic, capped to maxImageCount when maxImageCount is nonzero and
exceeded. -/
def requestedImageCount (minImageCount maxImageCount : Nat) : Nat :=
  let imageCount := (minImageCount + 1) % 2 ^ 32
  if 0 < maxImageCount ∧ maxImageCount < imageCount then maxImageCount
  else imageCount

/-- How the program reacts to the checked result of a Vulkan call:
throw a std::runtime_error with a fixed message, or apply the dedicated
in-drawFrame handling of vkAcquireNextImageKHR or vkQueuePresentKHR. -/
inductive ErrorHandling where
  | throwRuntimeError (message : String)
  | acquireHandling
  | presentHandling
deriving DecidableEq, Repr

/-- Every Vulkan-result check in the repository
(HelloTriangleApplication.cpp and the HelloTriangle.cpp snapshot), paired
with how a non-success result is handled there.  All sites other than the
acquire and present calls of drawFrame throw a runtime error with a fixed
message. -/
def checkedVulkanCalls : List (String × ErrorHandling) :=
  [("vkAcquireNextImageKHR", ErrorHandling.acquireHandling),
   ("vkQueueSubmit", ErrorHandling.throwRuntimeError "failed to submit draw command buffer"),
   ("vkQueuePresentKHR", ErrorHandling.presentHandling),
   ("glfwCreateWindowSurface", ErrorHandling.throwRuntimeError "failed to create window surface"),
   ("vkCreateSwapchainKHR", ErrorHandling.throwRuntimeError "failed to create swap chain"),
   ("vkCreateInstance", ErrorHandling.throwRuntimeError "failed to create instance!"),
   ("vkCreateDevice", ErrorHandling.throwRuntimeError "failed to create logical device"),
   ("vkCreateImageView", ErrorHandling.throwRuntimeError "failed to create image views"),
   ("vkCreateShaderModule", ErrorHandling.throwRuntimeError "failed to create shader module"),
   ("vkCreatePipelineLayout", ErrorHandling.throwRuntimeError "failed to create pipeline layout"),
   ("vkCreateGraphicsPipelines", ErrorHandling.throwRuntimeError "failed to create graphics pipeline"),
   ("vkCreateRenderPass", ErrorHandling.throwRuntimeError "failed to create render pass"),
   ("vkCreateFramebuffer", ErrorHandling.throwRuntimeError "failed to create framebuffer"),
   ("vkCreateCommandPool", ErrorHandling.throwRuntimeError "failed to create command pool"),
   ("vkAllocateCommandBuffers", ErrorHandling.throwRuntimeError "failed to allocate command buffers"),
   ("vkBeginCommandBuffer", ErrorHandling.throwRuntimeError "failed to begin recording command buffer"),
   ("vkEndCommandBuffer", ErrorHandling.throwRuntimeError "failed to record command buffer"),
   ("vkCreateSemaphore", ErrorHandling.throwRuntimeError "failed to create semaphores for a frame"),
   ("vkCreateFence", ErrorHandling.throwRuntimeError "failed to create fence object for a frame"),
   ("vkCreateBuffer", ErrorHandling.throwRuntimeError "failed to create vertex buffer"),
   ("vkAllocateMemory", ErrorHandling.throwRuntimeError "failed to allocate vertex buffer memory")]

/-- A concrete application state used by the closed witness and
counterexample theorems: slot 0 active, resize flag clear, two semaphore
pairs, two in-flight fences with handles 301 and 302, and a three-image
swap chain whose images are not in flight. -/
def sampleState : AppState :=
  { currentFrame := 0
    frameBufferResized := false
    imageAvailableSemaphores := [101, 102]
    renderFinishedSemaphores := [201, 202]
    inFlightFences := [301, 302]
    imagesInFlight := [0, 0, 0] }

/-- A concrete state like sampleState in which swap-chain image 1 is
recorded as still in flight under fence 302. -/
def sampleStateBusy : AppState :=
  { sampleState with imagesInFlight := [0, 302, 0] }

/-- The Vulkan calls drawFrame has made when vkQueueSubmit is reached with
acquired image index i: the wait on the fence of the slot, the acquire, the
conditional wait on the fence recorded for image i, the fence reset and the
submit itself. -/
def submitTrace (s : AppState) (i : Nat) : List Event :=
  [Event.waitForFences [slotFence s], Event.acquireNextImage (slotImageAvailable s)] ++
  (if s.imagesInFlight.getD i 0 ≠ 0 then
    [Event.waitForFences [s.imagesInFlight.getD i 0]] else []) ++
  [Event.resetFences [slotFence s],
   Event.queueSubmit [slotImageAvailable s] i [slotRenderFinished s] (slotFence s)]

lemma drawFrame_out_of_date (s : AppState) (env : DrawEnv)
    (h : env.acquireResult = VK_ERROR_OUT_OF_DATE_KHR) :
    drawFrame s env =
      ⟨[Event.waitForFences [slotFence s], Event.acquireNextImage (slotImageAvailable s),
        Event.recreateSwapChainCall], Outcome.returned, s⟩ := by
  simp [drawFrame, h]

lemma drawFrame_acquire_bad (s : AppState) (env : DrawEnv)
    (h1 : env.acquireResult ≠ VK_ERROR_OUT_OF_DATE_KHR)
    (h2 : env.acquireResult ≠ VK_SUCCESS)
    (h3 : env.acquireResult ≠ VK_SUBOPTIMAL_KHR) :
    drawFrame s env =
      ⟨[Event.waitForFences [slotFence s], Event.acquireNextImage (slotImageAvailable s)],
        Outcome.threw "failed to aquire swap chain image", s⟩ := by
  simp [drawFrame, h1, h2, h3]

lemma drawFrame_acquire_ok (s : AppState) (env : DrawEnv)
    (h : env.acquireResult = VK_SUCCESS ∨ env.acquireResult = VK_SUBOPTIMAL_KHR) :
    drawFrame s env = submitAndPresent s env := by
  rcases h with h | h <;>
    simp [drawFrame, h, VK_SUCCESS, VK_SUBOPTIMAL_KHR, VK_ERROR_OUT_OF_DATE_KHR]

lemma submitAndPresent_submit_fail (s : AppState) (env : DrawEnv)
    (h : env.submitResult ≠ VK_SUCCESS) :
    submitAndPresent s env =
      ⟨submitTrace s env.acquiredImageIndex,
        Outcome.threw "failed to submit draw command buffer",
        markImageInFlight s env.acquiredImageIndex⟩ := by
  simp [submitAndPresent, submitTrace, h]

lemma submitAndPresent_present_recreate (s : AppState) (env : DrawEnv)
    (hs : env.submitResult = VK_SUCCESS)
    (hp : env.presentResult = VK_ERROR_OUT_OF_DATE_KHR ∨
      env.presentResult = VK_SUBOPTIMAL_KHR ∨ s.frameBufferResized = true) :
    submitAndPresent s env =
      ⟨submitTrace s env.acquiredImageIndex ++
        [Event.queuePresent [slotRenderFinished s] env.acquiredImageIndex,
         Event.recreateSwapChainCall],
        Outcome.returned,
        { markImageInFlight s env.acquiredImageIndex with
            frameBufferResized := false,
            currentFrame := (s.currentFrame + 1) % MAX_FRAMES_IN_FLIGHT }⟩ := by
  rcases hp with hp | hp | hp <;>
    simp [submitAndPresent, submitTrace, markImageInFlight, hs, hp,
      VK_SUCCESS, VK_SUBOPTIMAL_KHR, VK_ERROR_OUT_OF_DATE_KHR]

lemma submitAndPresent_present_fail (s : AppState) (env : DrawEnv)
    (hs : env.submitResult = VK_SUCCESS)
    (hnp : ¬(env.presentResult = VK_ERROR_OUT_OF_DATE_KHR ∨
      env.presentResult = VK_SUBOPTIMAL_KHR ∨ s.frameBufferResized = true))
    (hp : env.presentResult ≠ VK_SUCCESS) :
    submitAndPresent s env =
      ⟨submitTrace s env.acquiredImageIndex ++
        [Event.queuePresent [slotRenderFinished s] env.acquiredImageIndex],
        Outcome.threw "failed to present swap chain image",
        markImageInFlight s env.acquiredImageIndex⟩ := by
  push_neg at hnp
  simp [submitAndPresent, submitTrace, markImageInFlight, hs, hp,
    hnp.1, hnp.2.1, hnp.2.2]

lemma submitAndPresent_present_ok (s : AppState) (env : DrawEnv)
    (hs : env.submitResult = VK_SUCCESS)
    (hp : env.presentResult = VK_SUCCESS)
    (hr : s.frameBufferResized = false) :
    submitAndPresent s env =
      ⟨submitTrace s env.acquiredImageIndex ++
        [Event.queuePresent [slotRenderFinished s] env.acquiredImageIndex],
        Outcome.returned,
        { markImageInFlight s env.acquiredImageIndex with
            currentFrame := (s.currentFrame + 1) % MAX_FRAMES_IN_FLIGHT }⟩ := by
  simp [submitAndPresent, submitTrace, markImageInFlight, hs, hp, hr,
    VK_SUCCESS, VK_SUBOPTIMAL_KHR, VK_ERROR_OUT_OF_DATE_KHR]

lemma acquire_ok_of_not_bad {env : DrawEnv}
    (hb : ¬(env.acquireResult ≠ VK_SUCCESS ∧ env.acquireResult ≠ VK_SUBOPTIMAL_KHR)) :
    env.acquireResult = VK_SUCCESS ∨ env.acquireResult = VK_SUBOPTIMAL_KHR := by
  by_cases h : env.acquireResult = VK_SUCCESS
  · exact Or.inl h
  · exact Or.inr (by push_neg at hb; exact hb h)

lemma drawFrame_currentFrame_cases (s : AppState) (env : DrawEnv) :
    (drawFrame s env).state.currentFrame = s.currentFrame ∨
    (drawFrame s env).state.currentFrame = (s.currentFrame + 1) % MAX_FRAMES_IN_FLIGHT := by
  by_cases ha : env.acquireResult = VK_ERROR_OUT_OF_DATE_KHR
  · rw [drawFrame_out_of_date s env ha]; exact Or.inl rfl
  by_cases hb : env.acquireResult ≠ VK_SUCCESS ∧ env.acquireResult ≠ VK_SUBOPTIMAL_KHR
  · rw [drawFrame_acquire_bad s env ha hb.1 hb.2]; exact Or.inl rfl
  rw [drawFrame_acquire_ok s env (acquire_ok_of_not_bad hb)]
  by_cases hs : env.submitResult = VK_SUCCESS
  · by_cases hp : env.presentResult = VK_ERROR_OUT_OF_DATE_KHR ∨
        env.presentResult = VK_SUBOPTIMAL_KHR ∨ s.frameBufferResized = true
    · rw [submitAndPresent_present_recreate s env hs hp]; exact Or.inr rfl
    · by_cases hps : env.presentResult = VK_SUCCESS
      · have hr : s.frameBufferResized = false := by
          push_neg at hp
          simpa using hp.2.2
        rw [submitAndPresent_present_ok s env hs hps hr]; exact Or.inr rfl
      · rw [submitAndPresent_present_fail s env hs hp hps]; exact Or.inl rfl
  · rw [submitAndPresent_submit_fail s env hs]; exact Or.inl rfl

lemma getD_set_self (l : List Nat) (i v : Nat) (h : i < l.length) :
    (l.set i v).getD i 0 = v := by
  induction l generalizing i with
  | nil => simp at h
  | cons a t ih =>
    cases i with
    | zero => rfl
    | succ n =>
      simp only [List.set_cons_succ, List.getD_cons_succ]
      exact ih n (by simpa using h)

/-- C1: for every invocation of drawFrame in which image acquisition
succeeds (VK_SUCCESS or VK_SUBOPTIMAL_KHR), submission succeeds and
presentation succeeds (and no resize is pending), the Vulkan calls occur in
exactly this order: wait on the in-flight fence of the current slot, acquire
an image index, wait on the in-flight fence recorded for that image if one is
present, reset the fence of the slot, submit the command buffer of the
acquired image (waiting on the image-available semaphore of the slot and
signaling its render-finished semaphore and its fence), present the image
waiting on the render-finished semaphore, and finally advance the slot
index. -/
theorem C1_drawFrame_step_order (s : AppState) (env : DrawEnv)
    (ha : env.acquireResult = VK_SUCCESS ∨ env.acquireResult = VK_SUBOPTIMAL_KHR)
    (hs : env.submitResult = VK_SUCCESS)
    (hp : env.presentResult = VK_SUCCESS)
    (hr : s.frameBufferResized = false) :
    (drawFrame s env).trace =
      [Event.waitForFences [slotFence s],
       Event.acquireNextImage (slotImageAvailable s)] ++
      (if s.imagesInFlight.getD env.acquiredImageIndex 0 ≠ 0 then
        [Event.waitForFences [s.imagesInFlight.getD env.acquiredImageIndex 0]] else []) ++
      [Event.resetFences [slotFence s],
       Event.queueSubmit [slotImageAvailable s] env.acquiredImageIndex
         [slotRenderFinished s] (slotFence s),
       Event.queuePresent [slotRenderFinished s] env.acquiredImageIndex] ∧
    (drawFrame s env).outcome = Outcome.returned ∧
    (drawFrame s env).state.currentFrame = (s.currentFrame + 1) % MAX_FRAMES_IN_FLIGHT := by
  rw [drawFrame_acquire_ok s env ha, submitAndPresent_present_ok s env hs hp hr]
  simp [submitTrace]

/-- Closed instance of C1: a full successful frame on the concrete state in
which swap-chain image 1 is still in flight under fence 302. -/
theorem C1_drawFrame_step_order_witness :
    (drawFrame sampleStateBusy
      { acquireResult := VK_SUCCESS, acquiredImageIndex := 1,
        submitResult := VK_SUCCESS, presentResult := VK_SUCCESS }).trace =
      [Event.waitForFences [301], Event.acquireNextImage 101,
       Event.waitForFences [302], Event.resetFences [301],
       Event.queueSubmit [101] 1 [201] 301, Event.queuePresent [201] 1] ∧
    (drawFrame sampleStateBusy
      { acquireResult := VK_SUCCESS, acquiredImageIndex := 1,
        submitResult := VK_SUCCESS, presentResult := VK_SUCCESS }).outcome =
      Outcome.returned ∧
    (drawFrame sampleStateBusy
      { acquireResult := VK_SUCCESS, acquiredImageIndex := 1,
        submitResult := VK_SUCCESS, presentResult := VK_SUCCESS }).state.currentFrame = 1 := by
  have h := C1_drawFrame_step_order sampleStateBusy
    { acquireResult := VK_SUCCESS, acquiredImageIndex := 1,
      submitResult := VK_SUCCESS, presentResult := VK_SUCCESS }
    (Or.inl rfl) rfl rfl rfl
  exact ⟨h.1.trans (by decide), h.2.1, h.2.2.trans (by decide)⟩

/-- C2: whenever vkAcquireNextImageKHR returns VK_ERROR_OUT_OF_DATE_KHR,
drawFrame recreates the swap chain and returns without submitting or
presenting; whenever vkQueuePresentKHR returns VK_ERROR_OUT_OF_DATE_KHR or
VK_SUBOPTIMAL_KHR, or the frameBufferResized flag is set, drawFrame clears
the flag and recreates the swap chain; any other non-success result of
acquire or present raises a runtime error instead. -/
theorem C2_swap_chain_invalidation (s : AppState) (env : DrawEnv) :
    (env.acquireResult = VK_ERROR_OUT_OF_DATE_KHR →
      (drawFrame s env).outcome = Outcome.returned ∧
      Event.recreateSwapChainCall ∈ (drawFrame s env).trace ∧
      (∀ w i g f, Event.queueSubmit w i g f ∉ (drawFrame s env).trace) ∧
      (∀ w i, Event.queuePresent w i ∉ (drawFrame s env).trace)) ∧
    (env.acquireResult ≠ VK_ERROR_OUT_OF_DATE_KHR → env.acquireResult ≠ VK_SUCCESS →
      env.acquireResult ≠ VK_SUBOPTIMAL_KHR →
      (drawFrame s env).outcome = Outcome.threw "failed to aquire swap chain image") ∧
    ((env.acquireResult = VK_SUCCESS ∨ env.acquireResult = VK_SUBOPTIMAL_KHR) →
      env.submitResult = VK_SUCCESS →
      (env.presentResult = VK_ERROR_OUT_OF_DATE_KHR ∨
        env.presentResult = VK_SUBOPTIMAL_KHR ∨ s.frameBufferResized = true) →
      (drawFrame s env).state.frameBufferResized = false ∧
      Event.recreateSwapChainCall ∈ (drawFrame s env).trace ∧
      (drawFrame s env).outcome = Outcome.returned) ∧
    ((env.acquireResult = VK_SUCCESS ∨ env.acquireResult = VK_SUBOPTIMAL_KHR) →
      env.submitResult = VK_SUCCESS →
      ¬(env.presentResult = VK_ERROR_OUT_OF_DATE_KHR ∨
        env.presentResult = VK_SUBOPTIMAL_KHR ∨ s.frameBufferResized = true) →
      env.presentResult ≠ VK_SUCCESS →
      (drawFrame s env).outcome = Outcome.threw "failed to present swap chain image") := by
  refine ⟨?_, ?_, ?_, ?_⟩
  · intro h
    rw [drawFrame_out_of_date s env h]
    simp
  · intro h1 h2 h3
    rw [drawFrame_acquire_bad s env h1 h2 h3]
  · intro ha hs hp
    rw [drawFrame_acquire_ok s env ha, submitAndPresent_present_recreate s env hs hp]
    simp
  · intro ha hs hnp hp
    rw [drawFrame_acquire_ok s env ha, submitAndPresent_present_fail s env hs hnp hp]

/-- Closed instance of C2: on the concrete state, an out-of-date acquire
returns with a recreation and no submit, and an out-of-date present result
clears the resize flag and recreates. -/
theorem C2_swap_chain_invalidation_witness :
    ((drawFrame sampleState
      { acquireResult := VK_ERROR_OUT_OF_DATE_KHR, acquiredImageIndex := 0,
        submitResult := VK_SUCCESS, presentResult := VK_SUCCESS }).outcome =
      Outcome.returned ∧
     Event.recreateSwapChainCall ∈ (drawFrame sampleState
      { acquireResult := VK_ERROR_OUT_OF_DATE_KHR, acquiredImageIndex := 0,
        submitResult := VK_SUCCESS, presentResult := VK_SUCCESS }).trace) ∧
    ((drawFrame sampleState
      { acquireResult := VK_SUCCESS, acquiredImageIndex := 0,
        submitResult := VK_SUCCESS, presentResult := VK_ERROR_OUT_OF_DATE_KHR }).state.frameBufferResized = false ∧
     Event.recreateSwapChainCall ∈ (drawFrame sampleState
      { acquireResult := VK_SUCCESS, acquiredImageIndex := 0,
        submitResult := VK_SUCCESS, presentResult := VK_ERROR_OUT_OF_DATE_KHR }).trace) := by
  have h1 := (C2_swap_chain_invalidation sampleState
    { acquireResult := VK_ERROR_OUT_OF_DATE_KHR, acquiredImageIndex := 0,
      submitResult := VK_SUCCESS, presentResult := VK_SUCCESS }).1 rfl
  have h2 := (C2_swap_chain_invalidation sampleState
    { acquireResult := VK_SUCCESS, acquiredImageIndex := 0,
      submitResult := VK_SUCCESS, presentResult := VK_ERROR_OUT_OF_DATE_KHR }).2.2.1
    (Or.inl rfl) rfl (Or.inl rfl)
  exact ⟨⟨h1.1, h1.2.1⟩, ⟨h2.1, h2.2.1⟩⟩

lemma submitAndPresent_trace_tail (s : AppState) (env : DrawEnv) :
    (submitAndPresent s env).trace =
      submitTrace s env.acquiredImageIndex ++
      (if env.submitResult = VK_SUCCESS then
        Event.queuePresent [slotRenderFinished s] env.acquiredImageIndex ::
        (if env.presentResult = VK_ERROR_OUT_OF_DATE_KHR ∨
            env.presentResult = VK_SUBOPTIMAL_KHR ∨ s.frameBufferResized = true then
          [Event.recreateSwapChainCall] else [])
       else []) := by
  by_cases hs : env.submitResult = VK_SUCCESS
  · by_cases hp : env.presentResult = VK_ERROR_OUT_OF_DATE_KHR ∨
        env.presentResult = VK_SUBOPTIMAL_KHR ∨ s.frameBufferResized = true
    · rw [submitAndPresent_present_recreate s env hs hp]
      simp [hs, hp]
    · by_cases hps : env.presentResult = VK_SUCCESS
      · have hr : s.frameBufferResized = false := by
          push_neg at hp
          simpa using hp.2.2
        rw [submitAndPresent_present_ok s env hs hps hr]
        simp [hs, hp]
      · rw [submitAndPresent_present_fail s env hs hp hps]
        simp [hs, hp]
  · rw [submitAndPresent_submit_fail s env hs]
    simp [hs]

lemma submitAndPresent_state_imagesInFlight (s : AppState) (env : DrawEnv) :
    (submitAndPresent s env).state.imagesInFlight =
      s.imagesInFlight.set env.acquiredImageIndex (slotFence s) := by
  by_cases hs : env.submitResult = VK_SUCCESS
  · by_cases hp : env.presentResult = VK_ERROR_OUT_OF_DATE_KHR ∨
        env.presentResult = VK_SUBOPTIMAL_KHR ∨ s.frameBufferResized = true
    · rw [submitAndPresent_present_recreate s env hs hp]; rfl
    · by_cases hps : env.presentResult = VK_SUCCESS
      · have hr : s.frameBufferResized = false := by
          push_neg at hp
          simpa using hp.2.2
        rw [submitAndPresent_present_ok s env hs hps hr]; rfl
      · rw [submitAndPresent_present_fail s env hs hp hps]; rfl
  · rw [submitAndPresent_submit_fail s env hs]; rfl

lemma mem_submitTrace {s : AppState} {i : Nat} {e : Event} (h : e ∈ submitTrace s i) :
    e = Event.waitForFences [slotFence s] ∨
    e = Event.acquireNextImage (slotImageAvailable s) ∨
    e = Event.waitForFences [s.imagesInFlight.getD i 0] ∨
    e = Event.resetFences [slotFence s] ∨
    e = Event.queueSubmit [slotImageAvailable s] i [slotRenderFinished s] (slotFence s) := by
  simp only [submitTrace, List.mem_append, List.mem_cons, List.not_mem_nil, or_false] at h
  split_ifs at h <;>
    simp only [List.mem_cons, List.mem_singleton, List.not_mem_nil, or_false] at h <;>
    tauto

/-- C3 counterexample: the claim requires recreateSwapChain to rebuild the
image-in-flight fence map, but createFenceImageTracking is not among the
calls recreateSwapChain makes. -/
theorem C3_fence_tracking_counterexample :
    SetupCall.createFenceImageTrackingCall ∉ recreateSwapChainCalls := by
  decide

/-- C3 (amended): every call to recreateSwapChain waits for the device,
destroys the framebuffers, command buffers, pipeline, pipeline layout,
render pass, image views and swap chain, and recreates them (the pipeline
layout inside createGraphicsPipeline); but it does not recreate the
image-in-flight fence map: createFenceImageTracking is not invoked, so
imagesInFlight keeps its previous size. -/
theorem C3_recreate_swap_chain_amended :
    recreateSwapChainCalls =
      [SetupCall.deviceWaitIdle] ++ cleanupSwapChainCalls ++
      [SetupCall.createSwapChainCall, SetupCall.createImageViewsCall,
       SetupCall.createRenderPassCall, SetupCall.createGraphicsPipelineCall,
       SetupCall.createFramebuffersCall, SetupCall.createCommandBuffersCall] ∧
    (SetupCall.destroyFramebuffers ∈ cleanupSwapChainCalls ∧
     SetupCall.freeCommandBuffers ∈ cleanupSwapChainCalls ∧
     SetupCall.destroyPipeline ∈ cleanupSwapChainCalls ∧
     SetupCall.destroyPipelineLayout ∈ cleanupSwapChainCalls ∧
     SetupCall.destroyRenderPass ∈ cleanupSwapChainCalls ∧
     SetupCall.destroyImageViews ∈ cleanupSwapChainCalls ∧
     SetupCall.destroySwapchain ∈ cleanupSwapChainCalls) ∧
    SetupCall.createFenceImageTrackingCall ∉ recreateSwapChainCalls ∧
    SetupCall.createSemaphoresCall ∉ recreateSwapChainCalls ∧
    SetupCall.createFencesCall ∉ recreateSwapChainCalls := by
  decide

/-- C4: in every invocation of drawFrame that reaches submission with
acquired image index i, if imagesInFlight[i] holds a fence (is not
VK_NULL_HANDLE) the CPU waits on that fence before submitting against image
i, and after submission imagesInFlight[i] equals the in-flight fence of the
current slot. -/
theorem C4_image_in_flight_guard (s : AppState) (env : DrawEnv)
    (ha : env.acquireResult = VK_SUCCESS ∨ env.acquireResult = VK_SUBOPTIMAL_KHR)
    (hlen : env.acquiredImageIndex < s.imagesInFlight.length) :
    (drawFrame s env).state.imagesInFlight.getD env.acquiredImageIndex 0 = slotFence s ∧
    (s.imagesInFlight.getD env.acquiredImageIndex 0 ≠ 0 →
      ∃ rest,
        (drawFrame s env).trace =
          [Event.waitForFences [slotFence s],
           Event.acquireNextImage (slotImageAvailable s),
           Event.waitForFences [s.imagesInFlight.getD env.acquiredImageIndex 0]] ++ rest ∧
        Event.queueSubmit [slotImageAvailable s] env.acquiredImageIndex
          [slotRenderFinished s] (slotFence s) ∈ rest) := by
  rw [drawFrame_acquire_ok s env ha]
  constructor
  · rw [submitAndPresent_state_imagesInFlight s env]
    exact getD_set_self _ _ _ hlen
  · intro hf
    rw [submitAndPresent_trace_tail s env]
    refine ⟨[Event.resetFences [slotFence s],
      Event.queueSubmit [slotImageAvailable s] env.acquiredImageIndex
        [slotRenderFinished s] (slotFence s)] ++
      (if env.submitResult = VK_SUCCESS then
        Event.queuePresent [slotRenderFinished s] env.acquiredImageIndex ::
        (if env.presentResult = VK_ERROR_OUT_OF_DATE_KHR ∨
            env.presentResult = VK_SUBOPTIMAL_KHR ∨ s.frameBufferResized = true then
          [Event.recreateSwapChainCall] else [])
       else []), ?_, by simp⟩
    simp only [submitTrace]
    rw [if_pos hf]
    simp

/-- Closed instance of C4: on the concrete state in which image 1 is in
flight under fence 302, drawFrame waits on fence 302 before submitting and
afterwards records fence 301 for image 1. -/
theorem C4_image_in_flight_guard_witness :
    (drawFrame sampleStateBusy
      { acquireResult := VK_SUCCESS, acquiredImageIndex := 1,
        submitResult := VK_SUCCESS, presentResult := VK_SUCCESS }).state.imagesInFlight.getD 1 0 = 301 ∧
    ∃ rest,
      (drawFrame sampleStateBusy
        { acquireResult := VK_SUCCESS, acquiredImageIndex := 1,
          submitResult := VK_SUCCESS, presentResult := VK_SUCCESS }).trace =
        [Event.waitForFences [301], Event.acquireNextImage 101,
         Event.waitForFences [302]] ++ rest ∧
      Event.queueSubmit [101] 1 [201] 301 ∈ rest := by
  have h := C4_image_in_flight_guard sampleStateBusy
    { acquireResult := VK_SUCCESS, acquiredImageIndex := 1,
      submitResult := VK_SUCCESS, presentResult := VK_SUCCESS }
    (Or.inl rfl) (by decide)
  obtain ⟨h1, h2⟩ := h
  obtain ⟨rest, hr1, hr2⟩ := h2 (by decide)
  exact ⟨h1, rest, hr1, hr2⟩

/-- C5: currentFrame starts at 0, stays in the range below
MAX_FRAMES_IN_FLIGHT, advances by exactly one modulo MAX_FRAMES_IN_FLIGHT
(= 2) in every invocation of drawFrame that completes submission and
presentation, and is left unchanged by an invocation that returns early on
an out-of-date acquire. -/
theorem C5_current_frame_range :
    MAX_FRAMES_IN_FLIGHT = 2 ∧
    (∀ numImages semAlloc fenceAlloc,
      (initialApp numImages semAlloc fenceAlloc).currentFrame = 0) ∧
    (∀ s env, s.currentFrame < MAX_FRAMES_IN_FLIGHT →
      (drawFrame s env).state.currentFrame < MAX_FRAMES_IN_FLIGHT) ∧
    (∀ s env, (env.acquireResult = VK_SUCCESS ∨ env.acquireResult = VK_SUBOPTIMAL_KHR) →
      env.submitResult = VK_SUCCESS → (drawFrame s env).outcome = Outcome.returned →
      (drawFrame s env).state.currentFrame =
        (s.currentFrame + 1) % MAX_FRAMES_IN_FLIGHT) ∧
    (∀ s env, env.acquireResult = VK_ERROR_OUT_OF_DATE_KHR →
      (drawFrame s env).state.currentFrame = s.currentFrame) := by
  refine ⟨rfl, fun numImages semAlloc fenceAlloc => rfl, ?_, ?_, ?_⟩
  · intro s env h
    rcases drawFrame_currentFrame_cases s env with hc | hc <;> rw [hc]
    · exact h
    · exact Nat.mod_lt _ (by decide)
  · intro s env ha hs hret
    rw [drawFrame_acquire_ok s env ha] at hret ⊢
    by_cases hp : env.presentResult = VK_ERROR_OUT_OF_DATE_KHR ∨
        env.presentResult = VK_SUBOPTIMAL_KHR ∨ s.frameBufferResized = true
    · rw [submitAndPresent_present_recreate s env hs hp]
    · by_cases hps : env.presentResult = VK_SUCCESS
      · have hr : s.frameBufferResized = false := by
          push_neg at hp
          simpa using hp.2.2
        rw [submitAndPresent_present_ok s env hs hps hr]
      · rw [submitAndPresent_present_fail s env hs hp hps] at hret
        exact absurd hret (by simp)
  · intro s env h
    rw [drawFrame_out_of_date s env h]

/-- Closed instance of C5: the range and advancement facts at the concrete
initial-style state. -/
theorem C5_current_frame_range_witness :
    (drawFrame sampleState
      { acquireResult := VK_SUCCESS, acquiredImageIndex := 0,
        submitResult := VK_SUCCESS, presentResult := VK_SUCCESS }).state.currentFrame <
      MAX_FRAMES_IN_FLIGHT ∧
    (drawFrame sampleState
      { acquireResult := VK_SUCCESS, acquiredImageIndex := 0,
        submitResult := VK_SUCCESS, presentResult := VK_SUCCESS }).state.currentFrame =
      (sampleState.currentFrame + 1) % MAX_FRAMES_IN_FLIGHT ∧
    (drawFrame sampleState
      { acquireResult := VK_ERROR_OUT_OF_DATE_KHR, acquiredImageIndex := 0,
        submitResult := VK_SUCCESS, presentResult := VK_SUCCESS }).state.currentFrame =
      sampleState.currentFrame := by
  have h := C5_current_frame_range
  exact ⟨h.2.2.1 sampleState
      { acquireResult := VK_SUCCESS, acquiredImageIndex := 0,
        submitResult := VK_SUCCESS, presentResult := VK_SUCCESS } (by decide),
    h.2.2.2.1 sampleState
      { acquireResult := VK_SUCCESS, acquiredImageIndex := 0,
        submitResult := VK_SUCCESS, presentResult := VK_SUCCESS }
      (Or.inl rfl) rfl (by decide),
    h.2.2.2.2 sampleState
      { acquireResult := VK_ERROR_OUT_OF_DATE_KHR, acquiredImageIndex := 0,
        submitResult := VK_SUCCESS, presentResult := VK_SUCCESS } rfl⟩

/-- C6: there is exactly one image-available and one render-finished
semaphore per frame slot (both vectors built by createSemaphores have length
MAX_FRAMES_IN_FLIGHT), and in every frame whose acquire succeeds the queue
submit waits on exactly the image-available semaphore of the current slot
and signals exactly its render-finished semaphore, which is the single
semaphore every present call in the trace waits on. -/
theorem C6_semaphore_pairing :
    (∀ alloc, (createSemaphores alloc).1.length = MAX_FRAMES_IN_FLIGHT ∧
      (createSemaphores alloc).2.length = MAX_FRAMES_IN_FLIGHT) ∧
    (∀ s env, (env.acquireResult = VK_SUCCESS ∨ env.acquireResult = VK_SUBOPTIMAL_KHR) →
      (∀ w i g f, Event.queueSubmit w i g f ∈ (drawFrame s env).trace →
        w = [slotImageAvailable s] ∧ g = [slotRenderFinished s] ∧ f = slotFence s) ∧
      (∀ w i, Event.queuePresent w i ∈ (drawFrame s env).trace →
        w = [slotRenderFinished s]) ∧
      (env.submitResult = VK_SUCCESS →
        Event.queueSubmit [slotImageAvailable s] env.acquiredImageIndex
          [slotRenderFinished s] (slotFence s) ∈ (drawFrame s env).trace ∧
        Event.queuePresent [slotRenderFinished s] env.acquiredImageIndex ∈
          (drawFrame s env).trace)) := by
  refine ⟨fun alloc => ⟨by simp [createSemaphores], by simp [createSemaphores]⟩, ?_⟩
  intro s env ha
  rw [drawFrame_acquire_ok s env ha, submitAndPresent_trace_tail s env]
  refine ⟨?_, ?_, ?_⟩
  · intro w i g f hmem
    rw [List.mem_append] at hmem
    rcases hmem with hmem | hmem
    · rcases mem_submitTrace hmem with h | h | h | h | h <;> simp_all
    · split_ifs at hmem <;> simp_all
  · intro w i hmem
    rw [List.mem_append] at hmem
    rcases hmem with hmem | hmem
    · rcases mem_submitTrace hmem with h | h | h | h | h <;> simp_all
    · split_ifs at hmem <;> simp_all
  · intro hs
    constructor
    · apply List.mem_append_left
      simp [submitTrace]
    · apply List.mem_append_right
      simp [hs]

/-- Closed instance of C6: semaphore vector lengths for a concrete
allocator, and the canonical submit and present events for a concrete
frame. -/
theorem C6_semaphore_pairing_witness :
    (createSemaphores (fun i => 100 + i)).1.length = MAX_FRAMES_IN_FLIGHT ∧
    Event.queueSubmit [101] 0 [201] 301 ∈ (drawFrame sampleState
      { acquireResult := VK_SUCCESS, acquiredImageIndex := 0,
        submitResult := VK_SUCCESS, presentResult := VK_SUCCESS }).trace ∧
    Event.queuePresent [201] 0 ∈ (drawFrame sampleState
      { acquireResult := VK_SUCCESS, acquiredImageIndex := 0,
        submitResult := VK_SUCCESS, presentResult := VK_SUCCESS }).trace := by
  have h := C6_semaphore_pairing
  have h2 := (h.2 sampleState
    { acquireResult := VK_SUCCESS, acquiredImageIndex := 0,
      submitResult := VK_SUCCESS, presentResult := VK_SUCCESS } (Or.inl rfl)).2.2 rfl
  exact ⟨(h.1 (fun i => 100 + i)).1, h2.1, h2.2⟩

/-- C7: when vkAcquireNextImageKHR returns VK_ERROR_OUT_OF_DATE_KHR,
drawFrame returns with the frame-synchronization state unchanged: the whole
state (so in particular imagesInFlight and currentFrame) is untouched and no
vkResetFences call is made; fences are created signaled, and vkResetFences
runs only in invocations whose acquire returned VK_SUCCESS or
VK_SUBOPTIMAL_KHR. -/
theorem C7_out_of_date_preserves_sync :
    (∀ alloc f, f ∈ createFences alloc → f.flags = VK_FENCE_CREATE_SIGNALED_BIT) ∧
    (∀ s env, env.acquireResult = VK_ERROR_OUT_OF_DATE_KHR →
      (drawFrame s env).state = s ∧
      (drawFrame s env).outcome = Outcome.returned ∧
      ∀ l, Event.resetFences l ∉ (drawFrame s env).trace) ∧
    (∀ s env l, Event.resetFences l ∈ (drawFrame s env).trace →
      env.acquireResult = VK_SUCCESS ∨ env.acquireResult = VK_SUBOPTIMAL_KHR) := by
  refine ⟨?_, ?_, ?_⟩
  · intro alloc f hf
    simp only [createFences, List.mem_map, List.mem_range] at hf
    obtain ⟨i, -, rfl⟩ := hf
    rfl
  · intro s env h
    rw [drawFrame_out_of_date s env h]
    exact ⟨rfl, rfl, fun l => by simp⟩
  · intro s env l hmem
    by_cases ha : env.acquireResult = VK_ERROR_OUT_OF_DATE_KHR
    · rw [drawFrame_out_of_date s env ha] at hmem
      simp at hmem
    by_cases hb : env.acquireResult ≠ VK_SUCCESS ∧ env.acquireResult ≠ VK_SUBOPTIMAL_KHR
    · rw [drawFrame_acquire_bad s env ha hb.1 hb.2] at hmem
      simp at hmem
    · exact acquire_ok_of_not_bad hb

/-- Closed instance of C7: on the concrete state, an out-of-date acquire
leaves the state unchanged and resets no fence, fence 0 of a concrete
allocator is created signaled, and a concrete reset that does occur belongs
to a successful acquire. -/
theorem C7_out_of_date_preserves_sync_witness :
    ((createFences (fun i => 301 + i)).getD 0
      { handle := 0, flags := 0 }).flags = VK_FENCE_CREATE_SIGNALED_BIT ∧
    (drawFrame sampleState
      { acquireResult := VK_ERROR_OUT_OF_DATE_KHR, acquiredImageIndex := 0,
        submitResult := VK_SUCCESS, presentResult := VK_SUCCESS }).state = sampleState ∧
    Event.resetFences [301] ∉ (drawFrame sampleState
      { acquireResult := VK_ERROR_OUT_OF_DATE_KHR, acquiredImageIndex := 0,
        submitResult := VK_SUCCESS, presentResult := VK_SUCCESS }).trace ∧
    (VK_SUCCESS = VK_SUCCESS ∨ VK_SUCCESS = VK_SUBOPTIMAL_KHR) := by
  have h := C7_out_of_date_preserves_sync
  have h1 := h.1 (fun i => 301 + i)
    { handle := 301, flags := VK_FENCE_CREATE_SIGNALED_BIT } (by decide)
  have h2 := h.2.1 sampleState
    { acquireResult := VK_ERROR_OUT_OF_DATE_KHR, acquiredImageIndex := 0,
      submitResult := VK_SUCCESS, presentResult := VK_SUCCESS } rfl
  have h3 := h.2.2 sampleState
    { acquireResult := VK_SUCCESS, acquiredImageIndex := 0,
      submitResult := VK_SUCCESS, presentResult := VK_SUCCESS } [301] (by decide)
  exact ⟨h1, h2.1, h2.2.2 [301], h3⟩

/-- C8 counterexample: VK_ERROR_OUT_OF_DATE_KHR is a non-success result of
the checked call vkAcquireNextImageKHR, yet drawFrame handles it by
recreating the swap chain and returning normally instead of throwing — an
error-recovery behaviour beyond propagating a generic failure. -/
theorem C8_error_recovery_counterexample :
    VK_ERROR_OUT_OF_DATE_KHR ≠ VK_SUCCESS ∧
    (drawFrame sampleState
      { acquireResult := VK_ERROR_OUT_OF_DATE_KHR, acquiredImageIndex := 0,
        submitResult := VK_SUCCESS, presentResult := VK_SUCCESS }).outcome =
      Outcome.returned ∧
    Event.recreateSwapChainCall ∈ (drawFrame sampleState
      { acquireResult := VK_ERROR_OUT_OF_DATE_KHR, acquiredImageIndex := 0,
        submitResult := VK_SUCCESS, presentResult := VK_SUCCESS }).trace := by
  decide

/-- C8 (amended): every Vulkan call whose result the program checks, except
the acquire and present calls inside drawFrame, handles a non-success result
by throwing a runtime error with a fixed message; the acquire call recovers
from VK_ERROR_OUT_OF_DATE_KHR by recreating the swap chain and throws on any
other non-success result, and the present call recovers from out-of-date,
suboptimal or a pending resize by recreating the swap chain and throws on
any other non-success result. -/
theorem C8_error_propagation_amended :
    (∀ c ∈ checkedVulkanCalls, c.1 ≠ "vkAcquireNextImageKHR" →
      c.1 ≠ "vkQueuePresentKHR" → ∃ msg, c.2 = ErrorHandling.throwRuntimeError msg) ∧
    (∀ s env, env.acquireResult = VK_ERROR_OUT_OF_DATE_KHR →
      (drawFrame s env).outcome = Outcome.returned ∧
      Event.recreateSwapChainCall ∈ (drawFrame s env).trace) ∧
    (∀ s env, env.acquireResult ≠ VK_ERROR_OUT_OF_DATE_KHR →
      env.acquireResult ≠ VK_SUCCESS → env.acquireResult ≠ VK_SUBOPTIMAL_KHR →
      (drawFrame s env).outcome = Outcome.threw "failed to aquire swap chain image") ∧
    (∀ s env, (env.acquireResult = VK_SUCCESS ∨ env.acquireResult = VK_SUBOPTIMAL_KHR) →
      env.submitResult ≠ VK_SUCCESS →
      (drawFrame s env).outcome = Outcome.threw "failed to submit draw command buffer") ∧
    (∀ s env, (env.acquireResult = VK_SUCCESS ∨ env.acquireResult = VK_SUBOPTIMAL_KHR) →
      env.submitResult = VK_SUCCESS →
      (env.presentResult = VK_ERROR_OUT_OF_DATE_KHR ∨
        env.presentResult = VK_SUBOPTIMAL_KHR ∨ s.frameBufferResized = true) →
      (drawFrame s env).outcome = Outcome.returned ∧
      Event.recreateSwapChainCall ∈ (drawFrame s env).trace) ∧
    (∀ s env, (env.acquireResult = VK_SUCCESS ∨ env.acquireResult = VK_SUBOPTIMAL_KHR) →
      env.submitResult = VK_SUCCESS →
      ¬(env.presentResult = VK_ERROR_OUT_OF_DATE_KHR ∨
        env.presentResult = VK_SUBOPTIMAL_KHR ∨ s.frameBufferResized = true) →
      env.presentResult ≠ VK_SUCCESS →
      (drawFrame s env).outcome = Outcome.threw "failed to present swap chain image") := by
  refine ⟨?_, ?_, ?_, ?_, ?_, ?_⟩
  · intro c hc h1 h2
    fin_cases hc <;> first
      | exact ⟨_, rfl⟩
      | exact absurd rfl h1
      | exact absurd rfl h2
  · intro s env h
    rw [drawFrame_out_of_date s env h]
    exact ⟨rfl, by simp⟩
  · intro s env h1 h2 h3
    rw [drawFrame_acquire_bad s env h1 h2 h3]
  · intro s env ha hs
    rw [drawFrame_acquire_ok s env ha, submitAndPresent_submit_fail s env hs]
  · intro s env ha hs hp
    rw [drawFrame_acquire_ok s env ha, submitAndPresent_present_recreate s env hs hp]
    exact ⟨rfl, by simp⟩
  · intro s env ha hs hnp hp
    rw [drawFrame_acquire_ok s env ha, submitAndPresent_present_fail s env hs hnp hp]

/-- Closed instance of C8 (amended): the swap-chain creation site throws,
an unrecognized acquire failure (result -4) throws, and an unrecognized
present failure (result -4, no resize pending) throws. -/
theorem C8_error_propagation_amended_witness :
    (∃ msg, (("vkCreateSwapchainKHR",
        ErrorHandling.throwRuntimeError "failed to create swap chain") :
        String × ErrorHandling).2 = ErrorHandling.throwRuntimeError msg) ∧
    (drawFrame sampleState
      { acquireResult := -4, acquiredImageIndex := 0,
        submitResult := VK_SUCCESS, presentResult := VK_SUCCESS }).outcome =
      Outcome.threw "failed to aquire swap chain image" ∧
    (drawFrame sampleState
      { acquireResult := VK_SUCCESS, acquiredImageIndex := 0,
        submitResult := VK_SUCCESS, presentResult := -4 }).outcome =
      Outcome.threw "failed to present swap chain image" := by
  have h := C8_error_propagation_amended
  refine ⟨h.1 ("vkCreateSwapchainKHR",
      ErrorHandling.throwRuntimeError "failed to create swap chain")
      (by decide) (by decide) (by decide),
    h.2.2.1 sampleState
      { acquireResult := -4, acquiredImageIndex := 0,
        submitResult := VK_SUCCESS, presentResult := VK_SUCCESS }
      (by decide) (by decide) (by decide),
    h.2.2.2.2.2 sampleState
      { acquireResult := VK_SUCCESS, acquiredImageIndex := 0,
        submitResult := VK_SUCCESS, presentResult := -4 }
      (Or.inl rfl) rfl (by decide) (by decide)⟩

/-- C9: the vertex list is the fixed three-element constant defined in the
class, and each recorded command buffer contains exactly one draw call, of
vertices.size() (= 3) vertices, 1 instance, vertex offset 0 and instance
offset 0. -/
theorem C9_single_triangle_draw :
    vertices.length = 3 ∧
    (∀ numFramebuffers cb, cb ∈ createCommandBuffers numFramebuffers →
      cb.filter isDrawCommand = [Command.draw vertices.length 1 0 0] ∧
      Command.draw 3 1 0 0 ∈ cb) := by
  refine ⟨rfl, ?_⟩
  intro numFramebuffers cb hcb
  simp only [createCommandBuffers, List.mem_map, List.mem_range] at hcb
  obtain ⟨i, -, rfl⟩ := hcb
  exact ⟨rfl, by simp [recordCommandBuffer, vertices]⟩

/-- Closed instance of C9: the command buffer recorded for framebuffer 0 of
a three-framebuffer swap chain contains exactly the draw of 3 vertices and
1 instance at offsets 0. -/
theorem C9_single_triangle_draw_witness :
    (recordCommandBuffer 0).filter isDrawCommand = [Command.draw 3 1 0 0] ∧
    Command.draw 3 1 0 0 ∈ recordCommandBuffer 0 := by
  have h := (C9_single_triangle_draw.2 3 (recordCommandBuffer 0)) (by decide)
  exact ⟨h.1, h.2⟩

/-- C10: createSwapChain requests minImageCount + 1 images, except when the
surface reports a nonzero maxImageCount exceeded by that value, in which
case it requests exactly maxImageCount; hence (for capability values
satisfying the Vulkan guarantee that a nonzero maxImageCount is at least
minImageCount, and absent uint32 overflow) the requested count is at least
minImageCount and, whenever maxImageCount is nonzero, at most
maxImageCount. -/
theorem C10_requested_image_count (mn mx : Nat)
    (hof : mn + 1 < 2 ^ 32) (hvk : mx ≠ 0 → mn ≤ mx) :
    requestedImageCount mn mx = (if 0 < mx ∧ mx < mn + 1 then mx else mn + 1) ∧
    mn ≤ requestedImageCount mn mx ∧
    (mx ≠ 0 → requestedImageCount mn mx ≤ mx) := by
  have hmod : (mn + 1) % 2 ^ 32 = mn + 1 := Nat.mod_eq_of_lt hof
  simp only [requestedImageCount, hmod]
  by_cases h : 0 < mx ∧ mx < mn + 1
  · rw [if_pos h]
    exact ⟨trivial, hvk (Nat.pos_iff_ne_zero.mp h.1), fun _ => Nat.le_refl mx⟩
  · rw [if_neg h]
    refine ⟨trivial, Nat.le_succ mn, ?_⟩
    intro hmx
    have hpos : 0 < mx := Nat.pos_of_ne_zero hmx
    rcases Nat.lt_or_ge mx (mn + 1) with hlt | hge
    · exact absurd ⟨hpos, hlt⟩ h
    · exact hge

/-- Closed instance of C10: with minImageCount 2 and maxImageCount 3 the
program requests 3 images, which lies between the bounds. -/
theorem C10_requested_image_count_witness :
    requestedImageCount 2 3 = (if 0 < 3 ∧ 3 < 2 + 1 then 3 else 2 + 1) ∧
    2 ≤ requestedImageCount 2 3 ∧
    (3 ≠ 0 → requestedImageCount 2 3 ≤ 3) := by
  exact C10_requested_image_count 2 3 (by decide) (fun _ => by decide)

end HelloTriangle

